import Mathlib

/-!
Verification of CopyToTcBSDBootFolder.py (Python_Samples/SCP_Samples/TcBSD):
a shallow embedding of the script's data model and control flow, and theorems
about it. The script parses flags, checks that the ssh and scp tools are
invocable, validates the local source path, composes a fixed sequence of
remote shell commands (conditioned on the restart flag), uploads the folder
with scp and runs the composed command string over ssh. The embedding makes
the filesystem and the subprocess layer explicit parameters (`Env`), so each
run of the script is a pure function of its arguments and environment.
-/

namespace CopyToTcBSD

/-- Parsed command-line arguments: --source-path, --remote-host, --restart,
--username (default "Administrator"). -/
structure Args where
  sourcePath : String
  remoteHost : String
  restart : Bool
  username : String
deriving Repr, DecidableEq

/-- Outcome of launching one subprocess: either the process completes with a
return code, stdout and stderr, or launching it raises an exception whose
message is `msg` (the `except Exception` branch of run_command). -/
inductive LaunchOutcome where
  | completes (returncode : Int) (stdout stderr : String)
  | raises (msg : String)
deriving Repr, DecidableEq

/-- run_command (script lines 23-35): runs the subprocess; with
capture_output it returns (returncode, stdout, stderr), without it returns
(returncode, "", ""); if launching raises, it returns (1, "", str(e)). -/
def run_command (outcome : LaunchOutcome) (capture_output : Bool) :
    Int × String × String :=
  match outcome with
  | .completes rc out err => if capture_output then (rc, out, err) else (rc, "", "")
  | .raises msg => (1, "", msg)

/-- The environment a run of the script observes: the outcomes of the five
subprocess launches it can make, and what the local filesystem says about the
source path. `sourceStr` is str(Path(source_path)), `resolvedSource` is
str(Path(source_path).resolve()) and `folderName` its terminal segment. -/
structure Env where
  sshProbe : LaunchOutcome
  scpProbe : LaunchOutcome
  sourceExists : Bool
  sourceStr : String
  resolvedSource : String
  folderName : String
  scpRun : LaunchOutcome
  sshRun : LaunchOutcome
deriving Repr, DecidableEq

/-- check_ssh_tools (script lines 38-47): probes `ssh -V` and `scp -h`,
classifies ssh present when the return code is 0 or 255 and scp present when
it is 0 or 1, and returns whether both are present together with the
diagnostic lines it prints when one is absent. -/
def check_ssh_tools (env : Env) : Bool × List String :=
  let ssh_ok := (run_command env.sshProbe true).1 == 0 ||
    (run_command env.sshProbe true).1 == 255
  let scp_ok := (run_command env.scpProbe true).1 == 0 ||
    (run_command env.scpProbe true).1 == 1
  if !ssh_ok then (false, ["Error: SSH client not found. Install OpenSSH."])
  else if !scp_ok then (false, ["Error: SCP not found. Install OpenSSH."])
  else (true, [])

/-- show_usage (script lines 15-20): the usage example lines. -/
def show_usage : List String :=
  [ "\nUsage Examples:",
    "  python CopyToTcBSDBootFolder.py --source-path 'C:\\Path\\To\\TwinCAT OS (x64)' --remote-host 192.168.1.100",
    "  python CopyToTcBSDBootFolder.py --source-path '/path/to/Boot' --remote-host 192.168.1.100 --restart",
    "  python CopyToTcBSDBootFolder.py --source-path './xyz' --remote-host tcbsd.local --username myuser --restart",
    "" ]

/-- The fixed remote destination directory (script line 91). -/
def final_dest : String := "/usr/local/etc/TwinCAT/3.1/Boot"

/-- The doas rule line the restart branch greps for and appends
(script lines 125-127). -/
def doasRuleLine (username : String) : String :=
  "permit nopass " ++ (username ++ " cmd TcSysExe.exe")

/-- The idempotent doas-rule step of the restart branch (script lines
125-128): append the rule line to doas.conf only when grep does not find it. -/
def doasRuleCheckCmd (username : String) : String :=
  "if ! " ++ ("grep -q '" ++ (doasRuleLine username ++
    ("' /usr/local/etc/doas.conf 2>/dev/null; then echo 'Adding doas rule for TcSysExe.exe...' && echo '" ++
      (doasRuleLine username ++
        ("' | doas tee -a /usr/local/etc/doas.conf; else echo 'doas rule for TcSysExe.exe already exists'; fi")))))

/-- The ownership step (script lines 108-110): chown only when owner or group
is wrong; the owner and group are the fixed literals Administrator and wheel. -/
def chownCmd : String :=
  "if [ \"$(stat -f '%Su' '" ++ (final_dest ++
    ("')\" != 'Administrator' ] || [ \"$(stat -f '%Sg' '" ++ (final_dest ++
      ("')\" != 'wheel' ]; then doas chown -R Administrator:wheel '" ++
        (final_dest ++ "'; fi")))))

/-- The copy step (script line 116): cd into the uploaded folder and copy its
contents into the destination. -/
def copyFilesCmd (folder : String) : String :=
  "cd ~/" ++ (folder ++ (" && cp -R ./* '" ++ (final_dest ++ "/'")))

/-- The cleanup step (script line 118): remove the uploaded temp folder. -/
def cleanupCmd (folder : String) : String :=
  "cd ~ " ++ ("&& rm -rf '" ++ (folder ++ "'"))

/-- The first ten composed commands (script lines 101-119): create the
destination if absent, fix ownership and write permission if wrong, copy the
uploaded files in and remove the temp upload. -/
def bootSetupCmds (folder : String) : List String :=
  [ "echo 'Creating Boot directory if it does not exist...'",
    "if [ ! -d '" ++ (final_dest ++ ("' ]; then doas mkdir -p '" ++ (final_dest ++ "'; fi"))),
    "echo 'Checking and fixing Boot folder ownership if needed...'",
    chownCmd,
    "echo 'Checking and fixing Boot folder write permission if needed...'",
    "if [ ! -w '" ++ (final_dest ++ ("' ]; then doas chmod -R u+rwxX '" ++ (final_dest ++ "'; fi"))),
    "echo 'Copying files...'",
    copyFilesCmd folder,
    "echo 'Cleaning up temp...'",
    cleanupCmd folder ]

/-- The composed remote command sequence (script lines 101-139): the ten
setup commands, then either the restart tail (doas-rule check, restart, mode
query) or the skip tail (skip notice, mode query). -/
def buildCmds (restart : Bool) (username folder : String) : List String :=
  bootSetupCmds folder ++
    (if restart then
      [ "echo 'Checking doas configuration for TcSysExe.exe...'",
        doasRuleCheckCmd username,
        "echo 'Restarting TwinCAT...'",
        "doas TcSysExe.exe --run",
        "echo 'Mode:'",
        "TcSysExe.exe --mode" ]
    else
      [ "echo 'Skipping restart (use --restart)'",
        "echo 'Mode:'",
        "TcSysExe.exe --mode" ])

/-- What one run of main produces: the exit code (0 on success, 1 on the
sys.exit(1) paths), the argument lists of the subprocesses it launched in
order, and the lines it printed. -/
structure RunResult where
  exitCode : Nat
  invoked : List (List String)
  output : List String
deriving Repr, DecidableEq

/-- main (script lines 50-149): check the tools (both probes are launched by
check_ssh_tools), validate the source path, print the configuration, upload
with `scp -r`, then run the composed commands joined with " && " over
`ssh -t`; each failing stage exits with code 1. -/
def main (args : Args) (env : Env) : RunResult :=
  let header := ["\n=== TwinCAT Boot Folder Copy Script ===\n"]
  let probes : List (List String) := [["ssh", "-V"], ["scp", "-h"]]
  let tools := check_ssh_tools env
  if tools.1 = false then
    { exitCode := 1, invoked := probes, output := header ++ tools.2 }
  else if env.sourceExists = false then
    { exitCode := 1, invoked := probes,
      output := header ++
        (("Error: '" ++ (env.sourceStr ++ "' not found")) :: show_usage) }
  else
    let configOut := [ "Configuration:",
      "  Source:        " ++ env.resolvedSource,
      "  Remote host:   " ++ args.remoteHost,
      "  SSH user:      " ++ args.username,
      "  Restart flag:  " ++ (if args.restart then "Yes" else "No"),
      "  Destination:   /usr/local/etc/TwinCAT/3.1/Boot\n" ]
    let temp_dest := args.username ++ ("@" ++ (args.remoteHost ++ ":~/"))
    let scpCmd := ["scp", "-r", env.resolvedSource, temp_dest]
    let r1 := run_command env.scpRun false
    if r1.1 ≠ 0 then
      { exitCode := 1, invoked := probes ++ [scpCmd],
        output := header ++ configOut ++
          [ "1) Uploading to remote temp...",
            "SCP failed (" ++ (toString r1.1 ++ ("): " ++ r1.2.2)) ] }
    else
      let cmds := buildCmds args.restart args.username env.folderName
      let full := String.intercalate " && " cmds
      let sshCmd := ["ssh", "-t", args.username ++ ("@" ++ args.remoteHost), full]
      let r2 := run_command env.sshRun false
      if r2.1 = 0 then
        { exitCode := 0, invoked := probes ++ [scpCmd, sshCmd],
          output := header ++ configOut ++
            [ "1) Uploading to remote temp...",
              "2) Setting up Boot directory and copying files...",
              "\n=== Success ===",
              "Boot folder updated (created and configured as needed)." ] }
      else
        { exitCode := 1, invoked := probes ++ [scpCmd, sshCmd],
          output := header ++ configOut ++
            [ "1) Uploading to remote temp...",
              "2) Setting up Boot directory and copying files...",
              "\nError: Remote step failed (exit " ++ (toString r2.1 ++ ")") ] }

/-- The __main__ wrapper (script lines 152-158): the process exit code is
130 when a KeyboardInterrupt aborts main, 1 when an unexpected exception
does, and otherwise what main produced (0, or 1 through sys.exit(1)). -/
def program_exit (args : Args) (env : Env) (interrupted : Bool)
    (crash : Option String) : Nat :=
  if interrupted then 130
  else
    match crash with
    | some _ => 1
    | none => (main args env).exitCode

/-- Semantics of a shell &&-chain: run the steps left to right, stopping
right after the first step that fails. -/
def andChainRun (ok : String → Bool) : List String → List String
  | [] => []
  | c :: rest => if ok c then c :: andChainRun ok rest else [c]

/-- Modelled effect of the doas-rule step on the lines of doas.conf, read off
the command string of doasRuleCheckCmd: the rule line is appended with
`tee -a` only when `grep -q` does not find it already present. -/
def applyRuleCheck (username : String) (conf : List String) : List String :=
  if doasRuleLine username ∈ conf then conf else conf ++ [doasRuleLine username]

/-- Modelled effect of the ownership step on the (owner, group) of the
destination, read off the command string of chownCmd: chown to
Administrator:wheel exactly when owner or group differs from that pair. -/
def applyChown (st : String × String) : String × String :=
  if st.1 ≠ "Administrator" ∨ st.2 ≠ "wheel" then ("Administrator", "wheel") else st

/-- The first five characters of a composed command: enough to tell the
command kinds apart (echo, the if-guards, cd, doas, the mode query). -/
def cmdTag (c : String) : List Char := c.data.take 5

/-- Concrete sample arguments: the no-restart scenario of the spec. -/
def argsW : Args :=
  { sourcePath := "./Boot", remoteHost := "10.0.0.5", restart := false,
    username := "Administrator" }

/-- A sample environment where every stage succeeds. -/
def envOk : Env :=
  { sshProbe := .completes 0 "OpenSSH_9.6" "",
    scpProbe := .completes 0 "usage: scp" "",
    sourceExists := true,
    sourceStr := "Boot",
    resolvedSource := "/home/user/Boot",
    folderName := "Boot",
    scpRun := .completes 0 "" "",
    sshRun := .completes 0 "" "" }

/-- The sample environment with the source path missing. -/
def envNoSrc : Env := { envOk with sourceExists := false }

/-- The sample environment with the ssh probe failing (exit 127). -/
def envNoSsh : Env := { envOk with sshProbe := .completes 127 "" "" }

/-! ## Helper lemmas -/

lemma str_append_assoc (a b c : String) : (a ++ b) ++ c = a ++ (b ++ c) := by
  apply String.ext
  simp [String.data_append]

lemma cmdTag_of_five (a b : String) (h : a.data.length = 5) :
    cmdTag (a ++ b) = a.data := by
  unfold cmdTag
  rw [String.data_append, ← h, List.take_left]

lemma cmdTag_copyFiles (f : String) : cmdTag (copyFilesCmd f) = ("cd ~/").data := by
  unfold copyFilesCmd
  exact cmdTag_of_five _ _ (by decide)

lemma cmdTag_cleanup (f : String) : cmdTag (cleanupCmd f) = ("cd ~ ").data := by
  unfold cleanupCmd
  exact cmdTag_of_five _ _ (by decide)

lemma cmdTag_ruleCheck (u : String) : cmdTag (doasRuleCheckCmd u) = ("if ! ").data := by
  unfold doasRuleCheckCmd
  exact cmdTag_of_five _ _ (by decide)

set_option maxRecDepth 20000 in
lemma tags_noRestart (u f : String) :
    (buildCmds false u f).map cmdTag =
      [ ("echo ").data, ("if [ ").data, ("echo ").data, ("if [ ").data,
        ("echo ").data, ("if [ ").data, ("echo ").data, ("cd ~/").data,
        ("echo ").data, ("cd ~ ").data, ("echo ").data, ("echo ").data,
        ("TcSys").data ] := by
  simp only [buildCmds, bootSetupCmds, Bool.false_eq_true, if_false,
    List.map_append, List.map_cons, List.map_nil,
    cmdTag_copyFiles, cmdTag_cleanup]
  decide

set_option maxRecDepth 20000 in
lemma tags_restart (u f : String) :
    (buildCmds true u f).map cmdTag =
      [ ("echo ").data, ("if [ ").data, ("echo ").data, ("if [ ").data,
        ("echo ").data, ("if [ ").data, ("echo ").data, ("cd ~/").data,
        ("echo ").data, ("cd ~ ").data, ("echo ").data, ("if ! ").data,
        ("echo ").data, ("doas ").data, ("echo ").data, ("TcSys").data ] := by
  simp only [buildCmds, bootSetupCmds, if_true,
    List.map_append, List.map_cons, List.map_nil,
    cmdTag_copyFiles, cmdTag_cleanup, cmdTag_ruleCheck]
  decide

lemma countP_tag_eq (t : List Char) (l : List String) :
    l.countP (fun c => cmdTag c == t) = (l.map cmdTag).countP (fun x => x == t) := by
  rw [List.countP_map]
  rfl

set_option maxRecDepth 20000 in
lemma countP_ruleTag_noRestart (u f : String) :
    (buildCmds false u f).countP (fun c => cmdTag c == ("if ! ").data) = 0 := by
  rw [countP_tag_eq, tags_noRestart]
  decide

set_option maxRecDepth 20000 in
lemma countP_doasTag_noRestart (u f : String) :
    (buildCmds false u f).countP (fun c => cmdTag c == ("doas ").data) = 0 := by
  rw [countP_tag_eq, tags_noRestart]
  decide

set_option maxRecDepth 20000 in
lemma countP_ruleTag_restart (u f : String) :
    (buildCmds true u f).countP (fun c => cmdTag c == ("if ! ").data) = 1 := by
  rw [countP_tag_eq, tags_restart]
  decide

lemma applyChown_eq (st : String × String) :
    applyChown st = ("Administrator", "wheel") := by
  obtain ⟨a, b⟩ := st
  unfold applyChown
  split
  · rfl
  · next h =>
      push_neg at h
      simp_all

lemma andChainRun_stops (ok : String → Bool) (l1 : List String) (c : String)
    (l2 : List String) (h1 : ∀ d ∈ l1, ok d = true) (hc : ok c = false) :
    andChainRun ok (l1 ++ c :: l2) = l1 ++ [c] := by
  induction l1 with
  | nil => simp [andChainRun, hc]
  | cons a t ih =>
      have ha : ok a = true := h1 a (by simp)
      simp [andChainRun, ha, ih (fun d hd => h1 d (by simp [hd]))]

lemma check_ssh_tools_iff (e : Env) :
    (check_ssh_tools e).1 = true ↔
      (((run_command e.sshProbe true).1 = 0 ∨ (run_command e.sshProbe true).1 = 255) ∧
       ((run_command e.scpProbe true).1 = 0 ∨ (run_command e.scpProbe true).1 = 1)) := by
  unfold check_ssh_tools
  by_cases h1 : (run_command e.sshProbe true).1 = 0 <;>
    by_cases h1b : (run_command e.sshProbe true).1 = 255 <;>
      by_cases h2 : (run_command e.scpProbe true).1 = 0 <;>
        by_cases h2b : (run_command e.scpProbe true).1 = 1 <;>
          simp_all [Bool.or_eq_true, beq_iff_eq]

lemma check_ssh_tools_diag (env : Env) (h : (check_ssh_tools env).1 = false) :
    (check_ssh_tools env).2 ≠ [] := by
  revert h
  unfold check_ssh_tools
  dsimp only
  split
  · intro _
    simp
  · split
    · intro _
      simp
    · intro h
      simp at h

lemma main_tools_failed (args : Args) (env : Env)
    (h : (check_ssh_tools env).1 = false) :
    main args env =
      { exitCode := 1, invoked := [["ssh", "-V"], ["scp", "-h"]],
        output := "\n=== TwinCAT Boot Folder Copy Script ===\n" ::
          (check_ssh_tools env).2 } := by
  unfold main
  simp [h]

lemma main_missing_source (args : Args) (env : Env)
    (ht : (check_ssh_tools env).1 = true) (hs : env.sourceExists = false) :
    main args env =
      { exitCode := 1, invoked := [["ssh", "-V"], ["scp", "-h"]],
        output := "\n=== TwinCAT Boot Folder Copy Script ===\n" ::
          ("Error: '" ++ (env.sourceStr ++ "' not found")) :: show_usage } := by
  unfold main
  simp [ht, hs]

lemma main_remote_stage (args : Args) (env : Env)
    (ht : (check_ssh_tools env).1 = true) (hs : env.sourceExists = true)
    (hscp : (run_command env.scpRun false).1 = 0) :
    (main args env).invoked =
      [ ["ssh", "-V"], ["scp", "-h"],
        ["scp", "-r", env.resolvedSource,
          args.username ++ ("@" ++ (args.remoteHost ++ ":~/"))],
        ["ssh", "-t", args.username ++ ("@" ++ args.remoteHost),
          String.intercalate " && "
            (buildCmds args.restart args.username env.folderName)] ] := by
  unfold main
  dsimp only
  rw [ht, hs, hscp]
  by_cases hr : (run_command env.sshRun false).1 = 0 <;> simp [hr]

lemma main_exit01 (args : Args) (env : Env) :
    (main args env).exitCode = 0 ∨ (main args env).exitCode = 1 := by
  unfold main
  dsimp only
  split
  · right; rfl
  · split
    · right; rfl
    · split
      · right; rfl
      · split
        · left; rfl
        · right; rfl

lemma not_scp_transfer_in_probes (src dst : String) :
    ["scp", "-r", src, dst] ∉ [["ssh", "-V"], ["scp", "-h"]] := by
  intro h
  simp only [List.mem_cons, List.not_mem_nil, or_false] at h
  rcases h with h | h <;> simpa using congrArg List.length h

/-! ## The claims -/

/-- C1: for every invocation that reaches the source validator (the tool
check passed) and whose source path does not exist, main exits with code 1,
prints the not-found error, prints the usage example lines, and never
launches an scp transfer. -/
theorem c1_missing_source_aborts (args : Args) (env : Env)
    (ht : (check_ssh_tools env).1 = true) (hs : env.sourceExists = false) :
    (main args env).exitCode = 1 ∧
    ("Error: '" ++ (env.sourceStr ++ "' not found")) ∈ (main args env).output ∧
    (∃ pre, (main args env).output = pre ++ show_usage) ∧
    (∀ src dst, ["scp", "-r", src, dst] ∉ (main args env).invoked) := by
  rw [main_missing_source args env ht hs]
  refine ⟨rfl, by simp, ?_, ?_⟩
  · exact ⟨["\n=== TwinCAT Boot Folder Copy Script ===\n",
      "Error: '" ++ (env.sourceStr ++ "' not found")], by simp⟩
  · intro src dst
    exact not_scp_transfer_in_probes src dst

/-- C1 witness: the concrete no-restart invocation with the source path
missing and both tools present. -/
theorem c1_missing_source_aborts_witness :
    (main argsW envNoSrc).exitCode = 1 ∧
    ("Error: '" ++ (envNoSrc.sourceStr ++ "' not found")) ∈ (main argsW envNoSrc).output ∧
    (∃ pre, (main argsW envNoSrc).output = pre ++ show_usage) ∧
    (∀ src dst, ["scp", "-r", src, dst] ∉ (main argsW envNoSrc).invoked) :=
  c1_missing_source_aborts argsW envNoSrc (by rfl) (by rfl)

/-- C2: with the restart flag unset the composed sequence is the ten setup
steps followed by exactly the skip notice, the Mode echo and the mode query;
it ends in the mode query, no step is an escalation-rule check (the marker
count is zero, and the rule-check command for any username is not an
element), and no step is the restart command. -/
theorem c2_no_restart_no_escalation (u f : String) :
    buildCmds false u f = bootSetupCmds f ++
      [ "echo 'Skipping restart (use --restart)'", "echo 'Mode:'",
        "TcSysExe.exe --mode" ] ∧
    (buildCmds false u f).countP (fun c => cmdTag c == ("if ! ").data) = 0 ∧
    (buildCmds false u f).countP (fun c => cmdTag c == ("doas ").data) = 0 ∧
    (∀ u', doasRuleCheckCmd u' ∉ buildCmds false u f) ∧
    "doas TcSysExe.exe --run" ∉ buildCmds false u f ∧
    (∃ pre, buildCmds false u f = pre ++ ["TcSysExe.exe --mode"]) := by
  have h0 := countP_ruleTag_noRestart u f
  have h1 := countP_doasTag_noRestart u f
  refine ⟨by simp [buildCmds], h0, h1, ?_, ?_, ?_⟩
  · intro u' hm
    rw [List.countP_eq_zero] at h0
    exact absurd (by simp [cmdTag_ruleCheck]) (h0 _ hm)
  · intro hm
    rw [List.countP_eq_zero] at h1
    exact absurd (by decide) (h1 _ hm)
  · exact ⟨bootSetupCmds f ++
      ["echo 'Skipping restart (use --restart)'", "echo 'Mode:'"],
      by simp [buildCmds]⟩

/-- C3: with the restart flag set the composed sequence contains exactly one
escalation-rule check step (one step carries the rule-check marker, and the
doas rule check for the supplied username is an element), and the modelled
effect of that command on doas.conf is idempotent: the rule line is appended
exactly when the grep for it fails, so a second run adds no duplicate. -/
theorem c3_escalation_check_once_idempotent (u f : String) (conf : List String) :
    (buildCmds true u f).countP (fun c => cmdTag c == ("if ! ").data) = 1 ∧
    doasRuleCheckCmd u ∈ buildCmds true u f ∧
    cmdTag (doasRuleCheckCmd u) = ("if ! ").data ∧
    (doasRuleLine u ∉ conf → applyRuleCheck u conf = conf ++ [doasRuleLine u]) ∧
    (doasRuleLine u ∈ conf → applyRuleCheck u conf = conf) ∧
    applyRuleCheck u (applyRuleCheck u conf) = applyRuleCheck u conf := by
  refine ⟨countP_ruleTag_restart u f, by simp [buildCmds], cmdTag_ruleCheck u,
    fun h => by simp [applyRuleCheck, h], fun h => by simp [applyRuleCheck, h], ?_⟩
  by_cases h : doasRuleLine u ∈ conf
  · simp [applyRuleCheck, h]
  · simp [applyRuleCheck, h, List.mem_append]

/-- C4 counterexample: at the scenario invocation (source ./Boot, host
10.0.0.5, no restart, default username) the composed sequence does not have
9 steps. -/
theorem c4_step_count_is_not_nine :
    (buildCmds false "Administrator" "Boot").length ≠ 9 := by
  decide

set_option maxRecDepth 20000 in
/-- C4 amended: at the scenario invocation the composed sequence has exactly
13 steps, its last step is the mode query, and it contains no
escalation-rule or restart step. -/
theorem c4_no_restart_scenario :
    (buildCmds false "Administrator" "Boot").length = 13 ∧
    (buildCmds false "Administrator" "Boot").getLast? = some "TcSysExe.exe --mode" ∧
    (buildCmds false "Administrator" "Boot").countP
      (fun c => cmdTag c == ("if ! ").data) = 0 ∧
    (buildCmds false "Administrator" "Boot").countP
      (fun c => cmdTag c == ("doas ").data) = 0 := by
  refine ⟨by decide, by decide, by decide, by decide⟩

/-- C5 counterexample: at the scenario invocation with --restart the composed
sequence does not have 13 steps. -/
theorem c5_step_count_is_not_thirteen :
    (buildCmds true "Administrator" "Boot").length ≠ 13 := by
  decide

set_option maxRecDepth 20000 in
/-- C5 amended: at the scenario invocation with --restart the composed
sequence has exactly 16 steps, among them the escalation-rule check and the
literal restart command. -/
theorem c5_restart_scenario :
    (buildCmds true "Administrator" "Boot").length = 16 ∧
    doasRuleCheckCmd "Administrator" ∈ buildCmds true "Administrator" "Boot" ∧
    "doas TcSysExe.exe --run" ∈ buildCmds true "Administrator" "Boot" := by
  refine ⟨by decide, by decide, by decide⟩

/-- C6: every invocation that reaches the remote-execution stage passes to
ssh exactly the composed steps joined with " && ", and an &&-chain is
short-circuiting: when every step before some failing step succeeds,
execution stops right at that failing step and no later step runs. -/
theorem c6_remote_command_joined (args : Args) (env : Env)
    (ht : (check_ssh_tools env).1 = true) (hs : env.sourceExists = true)
    (hscp : (run_command env.scpRun false).1 = 0) :
    (main args env).invoked =
      [ ["ssh", "-V"], ["scp", "-h"],
        ["scp", "-r", env.resolvedSource,
          args.username ++ ("@" ++ (args.remoteHost ++ ":~/"))],
        ["ssh", "-t", args.username ++ ("@" ++ args.remoteHost),
          String.intercalate " && "
            (buildCmds args.restart args.username env.folderName)] ] ∧
    (∀ (ok : String → Bool) (l1 : List String) (c : String) (l2 : List String),
      buildCmds args.restart args.username env.folderName = l1 ++ c :: l2 →
      (∀ d ∈ l1, ok d = true) → ok c = false →
      andChainRun ok (buildCmds args.restart args.username env.folderName) =
        l1 ++ [c]) := by
  refine ⟨main_remote_stage args env ht hs hscp, ?_⟩
  intro ok l1 c l2 hdecomp h1 hc
  rw [hdecomp]
  exact andChainRun_stops ok l1 c l2 h1 hc

/-- C6 witness: the concrete successful invocation. -/
theorem c6_remote_command_joined_witness :
    (main argsW envOk).invoked =
      [ ["ssh", "-V"], ["scp", "-h"],
        ["scp", "-r", envOk.resolvedSource,
          argsW.username ++ ("@" ++ (argsW.remoteHost ++ ":~/"))],
        ["ssh", "-t", argsW.username ++ ("@" ++ argsW.remoteHost),
          String.intercalate " && "
            (buildCmds argsW.restart argsW.username envOk.folderName)] ] ∧
    (∀ (ok : String → Bool) (l1 : List String) (c : String) (l2 : List String),
      buildCmds argsW.restart argsW.username envOk.folderName = l1 ++ c :: l2 →
      (∀ d ∈ l1, ok d = true) → ok c = false →
      andChainRun ok (buildCmds argsW.restart argsW.username envOk.folderName) =
        l1 ++ [c]) :=
  c6_remote_command_joined argsW envOk (by rfl) (by rfl) (by rfl)

/-- C7: the process exit code is always 0, 1 or 130: 130 when interrupted,
1 when an unexpected exception aborts main, and otherwise whatever main
produced, which is 0 or 1. -/
theorem c7_exit_codes (args : Args) (env : Env) (interrupted : Bool)
    (crash : Option String) :
    program_exit args env interrupted crash = 0 ∨
    program_exit args env interrupted crash = 1 ∨
    program_exit args env interrupted crash = 130 := by
  rcases main_exit01 args env with h | h <;>
    cases interrupted <;>
      rcases crash with _ | m <;>
        simp [program_exit, h]

/-- C8: when either probed tool is classified absent, check_ssh_tools
returns false with a nonempty diagnostic, main exits with code 1 and never
launches an scp transfer; and for every environment the check returns true
exactly when the ssh probe exits with 0 or 255 and the scp probe with 0
or 1. -/
theorem c8_tool_check_gates_upload (args : Args) (env : Env)
    (h : (check_ssh_tools env).1 = false) :
    (check_ssh_tools env).2 ≠ [] ∧
    (main args env).exitCode = 1 ∧
    (∀ src dst, ["scp", "-r", src, dst] ∉ (main args env).invoked) ∧
    (∀ e : Env, (check_ssh_tools e).1 = true ↔
      (((run_command e.sshProbe true).1 = 0 ∨ (run_command e.sshProbe true).1 = 255) ∧
       ((run_command e.scpProbe true).1 = 0 ∨ (run_command e.scpProbe true).1 = 1))) := by
  refine ⟨check_ssh_tools_diag env h, ?_, ?_, check_ssh_tools_iff⟩
  · rw [main_tools_failed args env h]
  · intro src dst
    rw [main_tools_failed args env h]
    exact not_scp_transfer_in_probes src dst

/-- C8 witness: a concrete environment whose ssh probe exits 127. -/
theorem c8_tool_check_gates_upload_witness :
    (check_ssh_tools envNoSsh).2 ≠ [] ∧
    (main argsW envNoSsh).exitCode = 1 ∧
    (∀ src dst, ["scp", "-r", src, dst] ∉ (main argsW envNoSsh).invoked) ∧
    (∀ e : Env, (check_ssh_tools e).1 = true ↔
      (((run_command e.sshProbe true).1 = 0 ∨ (run_command e.sshProbe true).1 = 255) ∧
       ((run_command e.scpProbe true).1 = 0 ∨ (run_command e.scpProbe true).1 = 1))) :=
  c8_tool_check_gates_upload argsW envNoSsh (by rfl)

set_option maxRecDepth 20000 in
/-- C9: the ownership step is the same fixed command for every invocation:
it names the literal owner and group Administrator:wheel and never
interpolates the username, while the doas rule added under restart does
contain the supplied username; the modelled effect of the ownership step
always provisions ("Administrator", "wheel"), so for any username other
than Administrator the provisioned owner differs from the connecting user. -/
theorem c9_ownership_ignores_username (r : Bool) (u f : String) :
    chownCmd ∈ buildCmds r u f ∧
    (∃ a b, chownCmd = a ++ ("Administrator:wheel" ++ b)) ∧
    (∃ a b, doasRuleCheckCmd u = a ++ (doasRuleLine u ++ b)) ∧
    doasRuleLine u = "permit nopass " ++ (u ++ " cmd TcSysExe.exe") ∧
    (∀ st : String × String, applyChown st = ("Administrator", "wheel")) ∧
    (∀ u' : String, u' ≠ "Administrator" →
      ∀ st : String × String, (applyChown st).1 ≠ u') := by
  refine ⟨by cases r <;> simp [buildCmds, bootSetupCmds], ?_, ?_, rfl,
    applyChown_eq, ?_⟩
  · exact ⟨"if [ \"$(stat -f '%Su' '/usr/local/etc/TwinCAT/3.1/Boot')\" != 'Administrator' ] || [ \"$(stat -f '%Sg' '/usr/local/etc/TwinCAT/3.1/Boot')\" != 'wheel' ]; then doas chown -R ",
      " '/usr/local/etc/TwinCAT/3.1/Boot'; fi", by decide⟩
  · refine ⟨"if ! " ++ "grep -q '",
      "' /usr/local/etc/doas.conf 2>/dev/null; then echo 'Adding doas rule for TcSysExe.exe...' && echo '" ++
        (doasRuleLine u ++
          ("' | doas tee -a /usr/local/etc/doas.conf; else echo 'doas rule for TcSysExe.exe already exists'; fi")),
      ?_⟩
    unfold doasRuleCheckCmd
    rw [str_append_assoc]
  · intro u' hne st
    rw [applyChown_eq st]
    exact fun hh => hne hh.symm

/-- C10: run_command is total with respect to exceptions: either the launch
completes and it returns the process returncode together with the captured
stdout and stderr (empty strings when capture_output is off), or the launch
raises and it returns (1, "", message) instead of propagating. -/
theorem c10_run_command_total (outcome : LaunchOutcome) (cap : Bool) :
    (∃ rc out err, outcome = .completes rc out err ∧
      run_command outcome cap =
        (rc, (if cap then out else ""), (if cap then err else ""))) ∨
    (∃ msg, outcome = .raises msg ∧ run_command outcome cap = (1, "", msg)) := by
  cases outcome with
  | completes rc out err =>
      exact Or.inl ⟨rc, out, err, rfl, by cases cap <;> rfl⟩
  | raises m =>
      exact Or.inr ⟨m, rfl, rfl⟩

end CopyToTcBSD
